import Mathlib

/-!
# BoxInvest — Enrichment & Edge-Scoring Pipeline, shallow embedding

A shallow embedding of the enrichment/scoring core of the BoxInvest backend
(`backend/app/enrichment/*.py`, `backend/app/scoring/*.py`), together with
theorems settling the frozen claims about it.

Modelling conventions:
* Python floats are modelled as exact rationals (`ℚ`); `round(x, d)` is
  modelled as round-half-to-even on `x * 10^d` (Python's rounding mode).
* Python `None` becomes `Option`; Python truthiness of optional floats,
  strings and lists is modelled explicitly where the source relies on it.
* `str.lower` is modelled as per-character lowercasing (`pyLower`).
* Network I/O (HTTP downloads, Overpass queries) is abstracted by passing the
  outcome of each external call as an explicit argument (`Option` for a call
  that may fail, a function from commune code to the list of fetched per-unit
  prices for the DVF downloads).
-/

/-! ## Python-style rounding on rationals -/

/-- Round to the nearest integer, ties to even (the rounding used by Python's
`round`). -/
def roundHalfEven (x : ℚ) : ℤ :=
  if x - ⌊x⌋ < 1/2 then ⌊x⌋
  else if 1/2 < x - ⌊x⌋ then ⌊x⌋ + 1
  else if ⌊x⌋ % 2 = 0 then ⌊x⌋ else ⌊x⌋ + 1

/-- Model of Python `round(x, d)` on exact rationals. -/
def pyRound (x : ℚ) (d : ℕ) : ℚ :=
  (roundHalfEven (x * 10 ^ d) : ℚ) / 10 ^ d


/-! ## Lowercasing (model of Python `str.lower`) -/

/-- Model of Python `str.lower`: lowercase each character (Lean's
`Char.toLower` handles the basic latin range). -/
def pyLower (s : String) : String := ⟨s.data.map Char.toLower⟩


/-- The set built by `{t.lower() for t in (tags or [])}` in the source. -/
def tagsSet (tags : Option (List String)) : Finset String :=
  ((tags.getD []).map pyLower).toFinset


/-! ## Financial metrics (`backend/app/scoring/metrics.py`) -/

def HIGH_ACCESSIBILITY_TAGS : Finset String :=
  {"digicode", "télécommande", "électricité", "eau", "vidéosurveillance", "24h/24"}

def HEIGHT_TAGS : Finset String := {"hauteur 2m", "hauteur 2.5m"}

def SECURITY_TAGS : Finset String :=
  {"gardiennage", "vidéosurveillance", "interphone", "digicode"}

/-- Result of `compute_metrics` (the returned dict; `none` models Python
`None`; the last three fields are unconditionally computed floats). -/
structure Metrics where
  price_per_sqm : Option ℚ
  estimated_rent_low : Option ℚ
  estimated_rent_high : Option ℚ
  gross_yield : Option ℚ
  storage_yield_estimate : Option ℚ
  accessibility_score : ℚ
  vertical_storage_potential : ℚ
  liquidity_score : ℚ
deriving DecidableEq, Repr

/-- `compute_metrics` from `backend/app/scoring/metrics.py`.
`city_avg_sell_per_sqm` is a parameter of the source function but unused in
its body. -/
def compute_metrics (price : ℚ) (surface : Option ℚ) (avg_rent_per_sqm : ℚ)
    (city_avg_sell_per_sqm : ℚ) (accessibility_tags : Option (List String))
    (photos_count : ℤ) : Metrics :=
  let _ := city_avg_sell_per_sqm
  let tags_set := tagsSet accessibility_tags
  -- Python truthiness: `surface and surface > 0` (None and 0.0 are falsy,
  -- which coincides with the 0 < s test)
  let hasSurface : Bool := match surface with
    | some s => decide (0 < s)
    | none => false
  let s0 := surface.getD 0
  let base_rent := avg_rent_per_sqm * s0
  let price_per_sqm := if hasSurface then some (pyRound (price / s0) 2) else none
  let estimated_rent_low :=
    if hasSurface then some (pyRound (base_rent * (85/100)) 2) else none
  let estimated_rent_high :=
    if hasSurface then some (pyRound (base_rent * (115/100)) 2) else none
  let gross_yield :=
    if hasSurface && decide (0 < price) then
      some (pyRound (base_rent * 12 / price * 100) 3)
    else none
  -- STORAGE_YIELD_PREMIUM = 1.30
  let storage_yield_estimate := gross_yield.map fun g => pyRound (g * (130/100)) 3
  let high_acc : ℕ := (tags_set ∩ HIGH_ACCESSIBILITY_TAGS).card
  let accessibility_score : ℚ :=
    min 100 ((high_acc : ℚ) * 20 + (if 3 ≤ photos_count then (10 : ℚ) else 0))
  let has_height : Bool := decide (tags_set ∩ HEIGHT_TAGS ≠ ∅)
  -- Python truthiness: `surface and surface >= 12` (equivalent to 12 ≤ s)
  let big_enough : Bool := match surface with
    | some s => decide (12 ≤ s)
    | none => false
  let vertical_storage_potential : ℚ :=
    if has_height && big_enough then 80
    else if has_height || big_enough then 45
    else 20
  let sec_tags : ℕ := (tags_set ∩ SECURITY_TAGS).card
  -- Python truthiness: `surface and surface >= 15`
  let surface15 : Bool := match surface with
    | some s => decide (15 ≤ s)
    | none => false
  let liquidity_score : ℚ :=
    min 100 ((photos_count : ℚ) * 5 + (sec_tags : ℚ) * 8 +
      (if surface15 then (20 : ℚ) else 0))
  { price_per_sqm := price_per_sqm
    estimated_rent_low := estimated_rent_low
    estimated_rent_high := estimated_rent_high
    gross_yield := gross_yield
    storage_yield_estimate := storage_yield_estimate
    accessibility_score := pyRound accessibility_score 2
    vertical_storage_potential := pyRound vertical_storage_potential 2
    liquidity_score := pyRound liquidity_score 2 }



/-! ## Edge score (`backend/app/scoring/edge_score.py`) and settings
(`backend/app/config.py`) -/

/-- The five edge-score weights from `app.config.Settings`. -/
structure Settings where
  weight_price_deviation : ℚ
  weight_yield : ℚ
  weight_storage_potential : ℚ
  weight_demand : ℚ
  weight_liquidity : ℚ
deriving DecidableEq, Repr

/-- The default weight values of `app.config.settings`. -/
def settings : Settings :=
  { weight_price_deviation := 30/100
    weight_yield := 25/100
    weight_storage_potential := 20/100
    weight_demand := 15/100
    weight_liquidity := 10/100 }

def YIELD_EXCELLENT : ℚ := 12
def YIELD_POOR : ℚ := 2
def COMMERCIAL_MAX : ℚ := 30

/-- `_clamp` with its `lo`/`hi` parameters explicit (the source defaults them
to 0.0 and 100.0 and every call site uses the defaults). -/
def _clamp (value lo hi : ℚ) : ℚ := max lo (min hi value)

def _price_deviation_score (price : ℚ) (surface : Option ℚ)
    (city_avg_sell_per_sqm : ℚ) (ml_price_deviation : Option ℚ) : ℚ :=
  match ml_price_deviation with
  | some d => _clamp ((d + 10) * 3) 0 100
  | none =>
    -- Python truthiness: `not surface or surface <= 0 or
    -- city_avg_sell_per_sqm <= 0` (surface None and 0.0 both land in the
    -- neutral branch)
    match surface with
    | none => 50
    | some s =>
      if s ≤ 0 ∨ city_avg_sell_per_sqm ≤ 0 then 50
      else
        _clamp (50 + (s * city_avg_sell_per_sqm - price) /
          (s * city_avg_sell_per_sqm) * 100 * (167/100)) 0 100

def _yield_score (gross_yield : Option ℚ) : ℚ :=
  match gross_yield with
  | none => 40
  | some y => _clamp ((y - YIELD_POOR) / (YIELD_EXCELLENT - YIELD_POOR) * 100) 0 100

def _storage_score (vertical_storage_potential : ℚ)
    (accessibility_tags : Option (List String)) : ℚ :=
  let tags_set := tagsSet accessibility_tags
  _clamp (vertical_storage_potential
    + (if "électricité" ∈ tags_set then (10 : ℚ) else 0)
    + (if "hauteur 2.5m" ∈ tags_set then (10 : ℚ) else 0)) 0 100

def _demand_score (transport_score commercial_density : ℚ) : ℚ :=
  _clamp transport_score 0 100 * (6/10)
    + _clamp (commercial_density / COMMERCIAL_MAX * 100) 0 100 * (4/10)

/-- `compute_edge_score`. `w` models the module-level `settings` read by the
source; the source defaults (`ml_price_deviation = None`,
`vertical_storage_potential = 30.0`) are passed explicitly by callers here. -/
def compute_edge_score (w : Settings) (price : ℚ) (surface : Option ℚ)
    (city_avg_sell_per_sqm : ℚ) (gross_yield : Option ℚ)
    (transport_score commercial_density : ℚ)
    (accessibility_tags : Option (List String)) (liquidity_score : ℚ)
    (ml_price_deviation : Option ℚ) (vertical_storage_potential : ℚ) : ℚ :=
  pyRound (_clamp
    (_price_deviation_score price surface city_avg_sell_per_sqm ml_price_deviation
        * w.weight_price_deviation
      + _yield_score gross_yield * w.weight_yield
      + _storage_score vertical_storage_potential accessibility_tags
        * w.weight_storage_potential
      + _demand_score transport_score commercial_density * w.weight_demand
      + _clamp liquidity_score 0 100 * w.weight_liquidity) 0 100) 2

/-! ## Market data (`backend/app/enrichment/market_enricher.py`) -/

/-- One value of the `CITY_MARKET_DATA` dict. -/
structure MarketRow where
  avg_rent_per_sqm : ℚ
  population_density : ℚ
  avg_sell_per_sqm : ℚ
  transport_score : ℚ
  commercial_density : ℚ
deriving DecidableEq, Repr

def CITY_MARKET_DATA : List (String × MarketRow) :=
  [("Paris",       ⟨25,     21000, 2800, 95, 28⟩),
   ("Lyon",        ⟨13,     10500, 1400, 78, 18⟩),
   ("Marseille",   ⟨10,     3500,  900,  65, 14⟩),
   ("Bordeaux",    ⟨12,     5000,  1300, 70, 16⟩),
   ("Toulouse",    ⟨11,     4000,  1100, 68, 15⟩),
   ("Nantes",      ⟨12,     4500,  1200, 72, 15⟩),
   ("Strasbourg",  ⟨23/2,   3400,  1050, 74, 14⟩),
   ("Montpellier", ⟨21/2,   3200,  950,  66, 13⟩),
   ("Lille",       ⟨19/2,   7000,  900,  76, 20⟩),
   ("Rennes",      ⟨11,     3900,  1050, 67, 13⟩),
   ("Nice",        ⟨15,     4800,  1500, 71, 17⟩),
   ("Grenoble",    ⟨10,     4400,  950,  69, 14⟩),
   ("default",     ⟨9,      2000,  800,  40, 8⟩)]

/-- The `MarketData` dataclass. -/
structure MarketData where
  avg_rent_area : ℚ
  population_density : ℚ
  city_avg_sell_per_sqm : ℚ
  transport_score : ℚ
  commercial_density : ℚ
deriving DecidableEq, Repr

/-- `get_market_data`: `CITY_MARKET_DATA.get(city or "", CITY_MARKET_DATA["default"])`.
(`city or ""` agrees with `Option.getD "" ` on every input since the empty
string is falsy.) -/
def get_market_data (city : Option String) : MarketData :=
  let d := (CITY_MARKET_DATA.lookup (city.getD "")).getD
    ((CITY_MARKET_DATA.lookup "default").getD ⟨9, 2000, 800, 40, 8⟩)
  { avg_rent_area := d.avg_rent_per_sqm
    population_density := d.population_density
    city_avg_sell_per_sqm := d.avg_sell_per_sqm
    transport_score := d.transport_score
    commercial_density := d.commercial_density }

/-- Modelled from the spec: the Market-Baseline Store lookup as §4.2 describes
it — missing from the code, where `get_market_data` never consults the DVF
cache and `get_cached_price` has no caller. "Lookup order: (1) DVF-derived
`avg_sell_per_sqm` cache for this city if present — substituted only for that
one field; (2) static per-city table entry; (3) static default entry if the
city is unrecognized or absent." -/
def get_baseline_spec (cache : String → Option ℚ) (city : Option String) :
    MarketData :=
  let base := get_market_data city
  match city with
  | some c =>
    match cache c with
    | some p => { base with city_avg_sell_per_sqm := p }
    | none => base
  | none => base

/-! ## Geo enricher (`backend/app/enrichment/geo_enricher.py`) -/

structure GeoData where
  transport_score : ℚ
  commercial_density : ℚ
deriving DecidableEq, Repr

def _transport_score (station_count : ℤ) : ℚ :=
  if station_count = 0 then 0
  else if 10 ≤ station_count then 100
  else min 100 ((station_count : ℚ) * 12)

def _commercial_density (poi_count : ℤ) : ℚ := (poi_count : ℚ)

/-- `enrich_geo`, with the outcome of each of the two Overpass queries passed
as an argument: `some n` models a response whose count parsed to `n`, `none`
models a query that failed after exhausting its 3 retries — in the source the
exception is caught inside `enrich_geo` and the count set to 0. -/
def enrich_geo (transport_result commercial_result : Option ℤ) : GeoData :=
  { transport_score := _transport_score (transport_result.getD 0)
    commercial_density := _commercial_density (commercial_result.getD 0) }

/-! ## Pipeline orchestrator (`backend/app/enrichment/pipeline.py`) -/

/-- The flat dict returned by `run_enrichment_pipeline`. -/
structure EnrichmentRecord where
  avg_rent_area : ℚ
  population_density : ℚ
  commercial_density : ℚ
  transport_score : ℚ
  liquidity_score : ℚ
  accessibility_score : ℚ
  vertical_storage_potential : ℚ
  price_per_sqm : Option ℚ
  estimated_rent_low : Option ℚ
  estimated_rent_high : Option ℚ
  gross_yield : Option ℚ
  storage_yield_estimate : Option ℚ
  ml_estimated_price : Option ℚ
  ml_price_deviation : Option ℚ
  edge_score : ℚ
deriving DecidableEq, Repr

/-- Python truthiness of an optional float (`None` and `0.0` are falsy). -/
def qTruthy : Option ℚ → Bool
  | some v => decide (v ≠ 0)
  | none => false

/-- `run_enrichment_pipeline`. The `listing_id` parameter of the source is
used only in a log message and is omitted. `geo_result` is the outcome of the
`await enrich_geo(lat, lon)` call: `Except.error` models a raised exception
(caught by the orchestrator, which then keeps the 30/5 default). -/
def run_enrichment_pipeline (price : ℚ) (surface : Option ℚ)
    (city : Option String) (lat lon : Option ℚ)
    (accessibility_tags : Option (List String)) (photos_count : ℤ)
    (ml_estimated_price : Option ℚ) (geo_result : Except Unit GeoData) :
    EnrichmentRecord :=
  let market := get_market_data city
  -- `geo = {"transport_score": 30.0, "commercial_density": 5.0}`;
  -- `if lat and lon: try: geo = await enrich_geo(lat, lon) except: ...`
  let geo : GeoData :=
    if qTruthy lat && qTruthy lon then
      match geo_result with
      | Except.ok g => g
      | Except.error _ => ⟨30, 5⟩
    else ⟨30, 5⟩
  let metrics := compute_metrics price surface market.avg_rent_area
    market.city_avg_sell_per_sqm accessibility_tags photos_count
  -- `if ml_estimated_price and ml_estimated_price > 0`
  let ml_price_deviation : Option ℚ :=
    match ml_estimated_price with
    | some m => if 0 < m then some (pyRound ((m - price) / m * 100) 2) else none
    | none => none
  -- The call site passes no `vertical_storage_potential`, so the source
  -- default 30.0 applies (and `ml_price_deviation` is passed by keyword).
  let edge := compute_edge_score settings price surface
    market.city_avg_sell_per_sqm metrics.gross_yield geo.transport_score
    geo.commercial_density accessibility_tags metrics.liquidity_score
    ml_price_deviation 30
  { avg_rent_area := market.avg_rent_area
    population_density := market.population_density
    commercial_density := geo.commercial_density
    transport_score := geo.transport_score
    liquidity_score := metrics.liquidity_score
    accessibility_score := metrics.accessibility_score
    vertical_storage_potential := metrics.vertical_storage_potential
    price_per_sqm := metrics.price_per_sqm
    estimated_rent_low := metrics.estimated_rent_low
    estimated_rent_high := metrics.estimated_rent_high
    gross_yield := metrics.gross_yield
    storage_yield_estimate := metrics.storage_yield_estimate
    ml_estimated_price := ml_estimated_price
    ml_price_deviation := ml_price_deviation
    edge_score := edge }

/-! ## DVF enricher (`backend/app/enrichment/dvf_enricher.py`)

`_parse_garage_prices` is modelled on the dataframe obtained after
`pd.read_csv` and header normalization: a list of rows with the four columns
the function uses. The locale-aware numeric coercion of `valeur_fonciere`
(`str.replace(",", ".")` + `pd.to_numeric(errors="coerce")`) is modelled by
storing the coerced result: `none` for an unparsable value (NaN), `some v`
for a parsed one. -/

/-- One row of a DVF commune CSV (the columns used by the parser). -/
structure DvfRow where
  id_mutation : String
  nature_mutation : String
  type_local : String
  valeur_fonciere : Option ℚ
deriving DecidableEq, Repr

def _MIN_PER_LOT : ℚ := 1500
def _MAX_PER_LOT : ℚ := 150000
def _TYPICAL_GARAGE_SQM : ℚ := 12

/-- The row filter of `_parse_garage_prices`: the
`nature_mutation == "Vente" and type_local == "Dépendance"` mask, followed by
`dropna` and the `> 0` filter on the coerced price. -/
def qualifies (r : DvfRow) : Bool :=
  r.nature_mutation == "Vente" && r.type_local == "Dépendance" &&
    (match r.valeur_fonciere with
     | some v => decide (0 < v)
     | none => false)

/-- `first()` aggregation on a mutation group: the price of the first
qualifying row of the group (0 if the group is empty, which never happens for
a key of the groupby). -/
def groupFirstPrice (grp : List DvfRow) : ℚ :=
  ((grp.head?.bind (·.valeur_fonciere)).getD 0)

/-- The per-unit price `price / lots` derived for one `id_mutation` key from
the qualifying rows of `rows`. -/
def perUnitPrice (rows : List DvfRow) (k : String) : ℚ :=
  groupFirstPrice ((rows.filter qualifies).filter (fun r => r.id_mutation == k))
    / ((((rows.filter qualifies).filter (fun r => r.id_mutation == k)).length : ℕ) : ℚ)

/-- `_parse_garage_prices`: filter, group by `id_mutation` (pandas sorts the
group keys), derive `price / lots` per mutation, keep the per-unit prices
inside `[_MIN_PER_LOT, _MAX_PER_LOT]`. -/
def _parse_garage_prices (rows : List DvfRow) : List ℚ :=
  (((((rows.filter qualifies).map (·.id_mutation)).toFinset).sort (· ≤ ·)).map
      (perUnitPrice rows)).filter
    (fun p => decide (_MIN_PER_LOT ≤ p) && decide (p ≤ _MAX_PER_LOT))

/-- Per-city DVF download configuration: department and commune file codes. -/
def CITY_DVF_CONFIG : List (String × String × List String) :=
  [("Paris", "75",
    ["75101", "75102", "75103", "75104", "75105", "75106", "75107", "75108",
     "75109", "75110", "75111", "75112", "75113", "75114", "75115", "75116",
     "75117", "75118", "75119", "75120"]),
   ("Lyon", "69",
    ["69381", "69382", "69383", "69384", "69385", "69386", "69387", "69388",
     "69389"]),
   ("Marseille", "13",
    ["13201", "13202", "13203", "13204", "13205", "13206", "13207", "13208",
     "13209", "13210", "13211", "13212", "13213", "13214", "13215", "13216"]),
   ("Bordeaux", "33", ["33063"]),
   ("Toulouse", "31", ["31555"]),
   ("Nantes", "44", ["44109"]),
   ("Montpellier", "34", ["34172"]),
   ("Lille", "59", ["59350"]),
   ("Rennes", "35", ["35238"]),
   ("Nice", "06", ["06088"]),
   ("Grenoble", "38", ["38185"])]

/-- `pd.Series.median`: middle element of the sorted list, or the mean of the
two middle elements for an even length. -/
def seriesMedian (l : List ℚ) : ℚ :=
  let s := l.insertionSort (· ≤ ·)
  if l.length % 2 = 1 then s.getD (l.length / 2) 0
  else (s.getD (l.length / 2 - 1) 0 + s.getD (l.length / 2) 0) / 2

/-- `_fetch_city`, with the outcome of each `_fetch_commune(dept, commune)`
download passed as the function `fetched` (a failed or empty download yields
`[]`, exactly as in the source, where every error path of `_fetch_commune`
returns the empty list). Pools all commune results, requires at least 5 valid
per-unit prices, and converts the median to a price per m². -/
def _fetch_city (fetched : String → String → List ℚ) (city : String) :
    Option ℚ :=
  match (CITY_DVF_CONFIG.lookup city) with
  | none => none
  | some (dept, communes) =>
    let all_prices := (communes.map (fetched dept)).flatten
    if all_prices.length < 5 then none
    else some (pyRound (seriesMedian all_prices / _TYPICAL_GARAGE_SQM) 2)

/-- The in-memory `_cache : dict[str, float]`, as a partial map. -/
def DvfCache := String → Option ℚ

/-- One `_cache[city] = price` assignment. -/
def cacheInsert (c : DvfCache) (city : String) (price : ℚ) : DvfCache :=
  fun x => if x = city then some price else c x

/-- `refresh_all_cities`: runs `_fetch_city` for every configured city and
writes the result into the cache for exactly the cities that produced one.
The source's bounded concurrency (semaphore of 4) and
`gather(..., return_exceptions=True)` do not affect the final cache contents:
a per-city task that raises is logged and skipped, which is modelled by the
`none` outcome of `_fetch_city`; updates are keyed by distinct city names, so
completion order is irrelevant and the configuration order is used. -/
def refresh_all_cities (fetched : String → String → List ℚ) (cache : DvfCache) :
    DvfCache :=
  (CITY_DVF_CONFIG.map Prod.fst).foldl
    (fun c city =>
      match _fetch_city fetched city with
      | some price => cacheInsert c city price
      | none => c)
    cache

/-- `get_cached_price` reads the cache map. -/
def get_cached_price (cache : DvfCache) (city : String) : Option ℚ :=
  cache city

/-! ## Helper lemmas -/

theorem roundHalfEven_le (x : ℚ) : (roundHalfEven x : ℚ) ≤ x + 1/2 := by
  have hf1 : ((⌊x⌋ : ℤ) : ℚ) ≤ x := Int.floor_le x
  have hf2 : x < (⌊x⌋ : ℚ) + 1 := Int.lt_floor_add_one x
  unfold roundHalfEven
  split
  · push_cast; linarith
  · split
    · push_cast; linarith
    · split <;> · push_cast; linarith

theorem le_roundHalfEven (x : ℚ) : x - 1/2 ≤ (roundHalfEven x : ℚ) := by
  have hf1 : ((⌊x⌋ : ℤ) : ℚ) ≤ x := Int.floor_le x
  have hf2 : x < (⌊x⌋ : ℚ) + 1 := Int.lt_floor_add_one x
  unfold roundHalfEven
  split
  · push_cast; linarith
  · split
    · push_cast; linarith
    · split <;> · push_cast; linarith

theorem pyRound_nonneg {x : ℚ} (h : 0 ≤ x) (d : ℕ) : 0 ≤ pyRound x d := by
  unfold pyRound
  have hd : (0 : ℚ) < 10 ^ d := by positivity
  have h1 : x * 10 ^ d - 1/2 ≤ (roundHalfEven (x * 10 ^ d) : ℚ) :=
    le_roundHalfEven _
  have h2 : (0 : ℚ) ≤ x * 10 ^ d := by positivity
  have h3 : (-(1/2) : ℚ) ≤ (roundHalfEven (x * 10 ^ d) : ℚ) := by linarith
  have h4 : (0 : ℤ) ≤ roundHalfEven (x * 10 ^ d) := by
    by_contra hc
    push_neg at hc
    have hc1 : roundHalfEven (x * 10 ^ d) ≤ -1 := by omega
    have : (roundHalfEven (x * 10 ^ d) : ℚ) ≤ -1 := by exact_mod_cast hc1
    linarith
  have h5 : (0 : ℚ) ≤ (roundHalfEven (x * 10 ^ d) : ℚ) := by exact_mod_cast h4
  positivity

theorem pyRound_le {x B : ℚ} (hB : 0 ≤ B) (h : x ≤ B) (d : ℕ)
    (hBint : ∃ n : ℤ, (n : ℚ) = B * 10 ^ d) : pyRound x d ≤ B := by
  unfold pyRound
  obtain ⟨n, hn⟩ := hBint
  have hd : (0 : ℚ) < 10 ^ d := by positivity
  have h1 : (roundHalfEven (x * 10 ^ d) : ℚ) ≤ x * 10 ^ d + 1/2 :=
    roundHalfEven_le _
  have h2 : x * 10 ^ d ≤ B * 10 ^ d := by
    exact mul_le_mul_of_nonneg_right h (le_of_lt hd)
  have h3 : (roundHalfEven (x * 10 ^ d) : ℚ) ≤ (n : ℚ) + 1/2 := by
    rw [hn]; linarith
  have h4 : roundHalfEven (x * 10 ^ d) ≤ n := by
    by_contra hc
    push_neg at hc
    have : (n : ℚ) + 1 ≤ (roundHalfEven (x * 10 ^ d) : ℚ) := by
      exact_mod_cast Int.add_one_le_iff.mpr hc
    linarith
  have h5 : (roundHalfEven (x * 10 ^ d) : ℚ) ≤ (n : ℚ) := by exact_mod_cast h4
  rw [div_le_iff₀ hd, ← hn]
  linarith

theorem char_toNat_ofNat_valid (m : ℕ) (h : m < 0xd800) :
    (Char.ofNat m).toNat = m := by
  have hv : m.isValidChar := Or.inl h
  rw [Char.ofNat, dif_pos hv]
  rfl

theorem char_toLower_idem (c : Char) : c.toLower.toLower = c.toLower := by
  unfold Char.toLower
  by_cases h : c.toNat ≥ 65 ∧ c.toNat ≤ 90
  · rw [if_pos h]
    have h2 : (Char.ofNat (c.toNat + 32)).toNat = c.toNat + 32 :=
      char_toNat_ofNat_valid _ (by omega)
    rw [if_neg]
    rw [h2]
    omega
  · rw [if_neg h, if_neg h]

theorem pyLower_idem (s : String) : pyLower (pyLower s) = pyLower s := by
  unfold pyLower
  simp only [List.map_map]
  congr 1
  apply List.map_congr_left
  intro c _
  exact char_toLower_idem c

theorem tagsSet_lower (l : List String) :
    tagsSet (some (l.map pyLower)) = tagsSet (some l) := by
  unfold tagsSet
  simp only [Option.getD_some, List.map_map]
  congr 1
  apply List.map_congr_left
  intro s _
  exact pyLower_idem s

theorem tagsSet_none : tagsSet none = tagsSet (some []) := rfl

theorem clamp01_nonneg (X : ℚ) : 0 ≤ _clamp X 0 100 := le_max_left _ _

theorem clamp01_le (X : ℚ) : _clamp X 0 100 ≤ 100 :=
  max_le (by norm_num) (min_le_left _ _)

theorem pyRound_clamp_mem (X : ℚ) :
    0 ≤ pyRound (_clamp X 0 100) 2 ∧ pyRound (_clamp X 0 100) 2 ≤ 100 ∧
      ∃ n : ℤ, pyRound (_clamp X 0 100) 2 = (n : ℚ) / 100 := by
  refine ⟨pyRound_nonneg (clamp01_nonneg X) 2,
    pyRound_le (by norm_num) (clamp01_le X) 2 ⟨10000, by norm_num⟩,
    ⟨roundHalfEven (_clamp X 0 100 * 10 ^ 2), by norm_num [pyRound]⟩⟩

/-! ## Claims -/

/-- C1: false of the code (code bug). The spec's Market-Baseline Store lookup
substitutes the DVF-derived cached `avg_sell_per_sqm`; the code's
`get_market_data` reads no cache at all (`get_cached_price` has no caller),
so with a cache entry for Lyon the spec-modelled lookup and the code
disagree, and the code returns the static 1400 regardless of the cache. -/
theorem get_market_data_ignores_dvf_cache :
    (get_market_data (some "Lyon")).city_avg_sell_per_sqm = 1400 ∧
      get_baseline_spec (fun c => if c = "Lyon" then some 2500 else none)
        (some "Lyon") ≠ get_market_data (some "Lyon") := by
  constructor
  · rfl
  · intro h
    have h2 : (get_baseline_spec (fun c => if c = "Lyon" then some 2500 else none)
        (some "Lyon")).city_avg_sell_per_sqm =
        (get_market_data (some "Lyon")).city_avg_sell_per_sqm := by rw [h]
    rw [show (get_baseline_spec (fun c => if c = "Lyon" then some 2500 else none)
        (some "Lyon")).city_avg_sell_per_sqm = 2500 from rfl] at h2
    rw [show (get_market_data (some "Lyon")).city_avg_sell_per_sqm = 1400 from rfl] at h2
    norm_num at h2

/-- C7: `compute_metrics` with `surface = None` leaves `price_per_sqm`, the
rent range, `gross_yield` and `storage_yield_estimate` absent, while the
three scores are still computed (`vertical_storage_potential` in particular
evaluates to 45 or 20). -/
theorem compute_metrics_none_surface (price avg_rent city_avg : ℚ)
    (tags : Option (List String)) (photos : ℤ) :
    (compute_metrics price none avg_rent city_avg tags photos).price_per_sqm = none ∧
    (compute_metrics price none avg_rent city_avg tags photos).estimated_rent_low = none ∧
    (compute_metrics price none avg_rent city_avg tags photos).estimated_rent_high = none ∧
    (compute_metrics price none avg_rent city_avg tags photos).gross_yield = none ∧
    (compute_metrics price none avg_rent city_avg tags photos).storage_yield_estimate = none ∧
    ((compute_metrics price none avg_rent city_avg tags photos).vertical_storage_potential = 45 ∨
     (compute_metrics price none avg_rent city_avg tags photos).vertical_storage_potential = 20) := by
  refine ⟨rfl, rfl, rfl, rfl, rfl, ?_⟩
  by_cases h : tagsSet tags ∩ HEIGHT_TAGS = ∅
  · right
    have hd : decide (tagsSet tags ∩ HEIGHT_TAGS ≠ ∅) = false := by simp [h]
    simp only [compute_metrics, hd]
    norm_num [pyRound, roundHalfEven]
  · left
    have hd : decide (tagsSet tags ∩ HEIGHT_TAGS ≠ ∅) = true := decide_eq_true h
    simp only [compute_metrics, hd]
    norm_num [pyRound, roundHalfEven]

/-- C8: for every input and every weight configuration summing to 1.0,
`compute_edge_score` returns a value in [0, 100] that is an integer number of
hundredths (rounded to 2 decimals). -/
theorem compute_edge_score_in_range (w : Settings) (price : ℚ)
    (surface : Option ℚ) (city_avg : ℚ) (gy : Option ℚ) (t c : ℚ)
    (tags : Option (List String)) (liq : ℚ) (ml : Option ℚ) (vsp : ℚ)
    (hw : w.weight_price_deviation + w.weight_yield + w.weight_storage_potential
      + w.weight_demand + w.weight_liquidity = 1) :
    0 ≤ compute_edge_score w price surface city_avg gy t c tags liq ml vsp ∧
    compute_edge_score w price surface city_avg gy t c tags liq ml vsp ≤ 100 ∧
    ∃ n : ℤ, compute_edge_score w price surface city_avg gy t c tags liq ml vsp
      = (n : ℚ) / 100 := by
  unfold compute_edge_score
  exact pyRound_clamp_mem _

/-- Witness for C8 at the default weights and a concrete listing. -/
theorem compute_edge_score_in_range_witness :
    0 ≤ compute_edge_score settings 50000 (some 15) 1400 none 30 5 none 48 none 30 ∧
    compute_edge_score settings 50000 (some 15) 1400 none 30 5 none 48 none 30 ≤ 100 ∧
    ∃ n : ℤ, compute_edge_score settings 50000 (some 15) 1400 none 30 5 none 48 none 30
      = (n : ℚ) / 100 :=
  compute_edge_score_in_range settings 50000 (some 15) 1400 none 30 5 none 48 none 30
    (by norm_num [settings])

/-- C9: if either coordinate is `None` or exactly 0.0 (falsy), the
orchestrator never looks at the geo fetch outcome and the record carries the
default signal `transport_score = 30`, `commercial_density = 5`. -/
theorem pipeline_falsy_coords_default_geo (price : ℚ) (surface : Option ℚ)
    (city : Option String) (lat lon : Option ℚ)
    (tags : Option (List String)) (photos : ℤ) (ml : Option ℚ)
    (g g' : Except Unit GeoData)
    (h : lat = none ∨ lat = some 0 ∨ lon = none ∨ lon = some 0) :
    run_enrichment_pipeline price surface city lat lon tags photos ml g =
      run_enrichment_pipeline price surface city lat lon tags photos ml g' ∧
    (run_enrichment_pipeline price surface city lat lon tags photos ml g).transport_score = 30 ∧
    (run_enrichment_pipeline price surface city lat lon tags photos ml g).commercial_density = 5 := by
  have hq : (qTruthy lat && qTruthy lon) = false := by
    rcases h with h | h | h | h <;> subst h <;>
      simp [qTruthy, Bool.and_eq_false_iff]
  refine ⟨?_, ?_, ?_⟩ <;> simp only [run_enrichment_pipeline, hq] <;> rfl

/-- Witness for C9: a listing sitting exactly on the equator. -/
theorem pipeline_falsy_coords_default_geo_witness :
    run_enrichment_pipeline 40000 (some 12) (some "Paris") (some 0) (some 2)
        none 2 none (Except.ok ⟨77, 9⟩) =
      run_enrichment_pipeline 40000 (some 12) (some "Paris") (some 0) (some 2)
        none 2 none (Except.error ()) ∧
    (run_enrichment_pipeline 40000 (some 12) (some "Paris") (some 0) (some 2)
        none 2 none (Except.ok ⟨77, 9⟩)).transport_score = 30 ∧
    (run_enrichment_pipeline 40000 (some 12) (some "Paris") (some 0) (some 2)
        none 2 none (Except.ok ⟨77, 9⟩)).commercial_density = 5 :=
  pipeline_falsy_coords_default_geo 40000 (some 12) (some "Paris") (some 0)
    (some 2) none 2 none (Except.ok ⟨77, 9⟩) (Except.error ())
    (Or.inr (Or.inl rfl))

/-- C2 counterexample: with coordinates present and both Overpass queries
failing after their retries, the record carries `transport_score = 0` and
`commercial_density = 0`, not the claimed 30 / 5 — `enrich_geo` catches the
failures itself and substitutes zero counts, so the orchestrator's 30/5
default is never reached. -/
theorem geo_failure_record_not_30_5 :
    ¬ ((run_enrichment_pipeline 40000 (some 12) (some "Paris") (some 48) (some 2)
          none 2 none (Except.ok (enrich_geo none none))).transport_score = 30 ∧
       (run_enrichment_pipeline 40000 (some 12) (some "Paris") (some 48) (some 2)
          none 2 none (Except.ok (enrich_geo none none))).commercial_density = 5) := by
  intro h
  have h1 := h.1
  rw [show (run_enrichment_pipeline 40000 (some 12) (some "Paris") (some 48) (some 2)
      none 2 none (Except.ok (enrich_geo none none))).transport_score = 0 from rfl] at h1
  norm_num at h1

/-- C2 (amended): for every listing with truthy coordinates, if both POI
queries fail after exhausting their retries the record contains
`transport_score = 0` and `commercial_density = 0` (the zero-count fallback
inside `enrich_geo`), and no error propagates; the 30/5 default applies only
when coordinates are falsy or `enrich_geo` itself raises. -/
theorem geo_query_failure_yields_zero (price : ℚ) (surface : Option ℚ)
    (city : Option String) (lat lon : Option ℚ) (tags : Option (List String))
    (photos : ℤ) (ml : Option ℚ)
    (h1 : qTruthy lat = true) (h2 : qTruthy lon = true) :
    (run_enrichment_pipeline price surface city lat lon tags photos ml
        (Except.ok (enrich_geo none none))).transport_score = 0 ∧
    (run_enrichment_pipeline price surface city lat lon tags photos ml
        (Except.ok (enrich_geo none none))).commercial_density = 0 := by
  constructor <;>
    simp [run_enrichment_pipeline, h1, h2, enrich_geo, _transport_score,
      _commercial_density]

/-- Witness for C2 (amended) at concrete Paris coordinates. -/
theorem geo_query_failure_yields_zero_witness :
    (run_enrichment_pipeline 40000 (some 12) (some "Paris") (some 48) (some 2)
        none 2 none (Except.ok (enrich_geo none none))).transport_score = 0 ∧
    (run_enrichment_pipeline 40000 (some 12) (some "Paris") (some 48) (some 2)
        none 2 none (Except.ok (enrich_geo none none))).commercial_density = 0 :=
  geo_query_failure_yields_zero 40000 (some 12) (some "Paris") (some 48) (some 2)
    none 2 none (by decide) (by decide)

/-- C3 counterexample: a listing whose metrics-layer
`vertical_storage_potential` is 80 (height tag, surface ≥ 12). The pipeline's
edge score (62.05) differs from the edge score recomputed from the record
with its own `vertical_storage_potential` (72.05), because the orchestrator
calls `compute_edge_score` without passing that value. -/
theorem pipeline_storage_base_counterexample :
    (run_enrichment_pipeline 10000 (some 15) none none none
        (some ["hauteur 2.5m"]) 0 none (Except.error ())).edge_score ≠
      compute_edge_score settings 10000 (some 15) 800
        (run_enrichment_pipeline 10000 (some 15) none none none
          (some ["hauteur 2.5m"]) 0 none (Except.error ())).gross_yield
        30 5 (some ["hauteur 2.5m"])
        (run_enrichment_pipeline 10000 (some 15) none none none
          (some ["hauteur 2.5m"]) 0 none (Except.error ())).liquidity_score
        none
        (run_enrichment_pipeline 10000 (some 15) none none none
          (some ["hauteur 2.5m"]) 0 none (Except.error ())).vertical_storage_potential := by
  have ht : tagsSet (some ["hauteur 2.5m"]) = {"hauteur 2.5m"} := by decide
  have hc1 : (({"hauteur 2.5m"} : Finset String) ∩ HIGH_ACCESSIBILITY_TAGS).card = 0 := by
    decide
  have hc2 : (({"hauteur 2.5m"} : Finset String) ∩ SECURITY_TAGS).card = 0 := by decide
  have hc3 : decide ((({"hauteur 2.5m"} : Finset String) ∩ HEIGHT_TAGS) ≠ ∅) = true := by
    decide
  have hm : get_market_data none = ⟨9, 2000, 800, 40, 8⟩ := by decide
  have hne : ("électricité" : String) ≠ "hauteur 2.5m" := by decide
  norm_num [run_enrichment_pipeline, compute_metrics, compute_edge_score,
    hm, hne, _price_deviation_score, _yield_score,
    _storage_score, _demand_score, _clamp, settings, YIELD_POOR, YIELD_EXCELLENT,
    COMMERCIAL_MAX, qTruthy, ht, hc1, hc2, hc3, pyRound, roundHalfEven]

/-- C3 (amended): the storage sub-score starts from `compute_edge_score`'s
`vertical_storage_potential` argument, adds +10 for an electricity tag and
+10 for a "hauteur 2.5m" tag and clamps to 100 — but the orchestrator does
not pass the metrics-layer value: `compute_edge_score` is called without that
argument, so the default base 30 is used, and the pipeline's edge score is
exactly the edge score recomputed from the record's fields with base 30. -/
theorem pipeline_storage_base_is_default (vsp : ℚ) (tags : Option (List String))
    (price : ℚ) (surface : Option ℚ) (city : Option String) (lat lon : Option ℚ)
    (photos : ℤ) (ml : Option ℚ) (g : Except Unit GeoData) :
    _storage_score vsp tags =
      _clamp (vsp + (if "électricité" ∈ tagsSet tags then (10 : ℚ) else 0)
        + (if "hauteur 2.5m" ∈ tagsSet tags then (10 : ℚ) else 0)) 0 100 ∧
    (run_enrichment_pipeline price surface city lat lon tags photos ml g).edge_score =
      compute_edge_score settings price surface
        (get_market_data city).city_avg_sell_per_sqm
        (run_enrichment_pipeline price surface city lat lon tags photos ml g).gross_yield
        (run_enrichment_pipeline price surface city lat lon tags photos ml g).transport_score
        (run_enrichment_pipeline price surface city lat lon tags photos ml g).commercial_density
        tags
        (run_enrichment_pipeline price surface city lat lon tags photos ml g).liquidity_score
        (run_enrichment_pipeline price surface city lat lon tags photos ml g).ml_price_deviation
        30 :=
  ⟨rfl, rfl⟩

/-- C4 counterexample: in the spec's scenario the liquidity score is not 48 —
both `digicode` and `gardiennage` are security tags, so the tag term is
2 × 8 = 16, not 8. -/
theorem scenario_liquidity_not_48 :
    (compute_metrics 50000 (some 15) 13 1400 (some ["digicode", "gardiennage"]) 4).liquidity_score
      ≠ 48 := by
  have ht : tagsSet (some ["digicode", "gardiennage"]) = {"digicode", "gardiennage"} := by
    decide
  have hs : (({"digicode", "gardiennage"} : Finset String) ∩ SECURITY_TAGS).card = 2 := by
    decide
  norm_num [compute_metrics, ht, hs, pyRound, roundHalfEven]

/-- C4 (amended): the spec scenario (price 50000, surface 15, rent baseline
13, sell baseline 1400, tags digicode+gardiennage, 4 photos) yields
`price_per_sqm = 3333.33`, `estimated_rent_low = 165.75`,
`estimated_rent_high = 224.25`, `gross_yield = 4.68`,
`storage_yield_estimate = 6.084`, `accessibility_score = 30`,
`vertical_storage_potential = 45` and `liquidity_score = 56` (not 48: two
security tags count, 20 + 16 + 20). -/
theorem scenario_metrics_values :
    (compute_metrics 50000 (some 15) 13 1400 (some ["digicode", "gardiennage"]) 4).price_per_sqm
      = some (333333/100) ∧
    (compute_metrics 50000 (some 15) 13 1400 (some ["digicode", "gardiennage"]) 4).estimated_rent_low
      = some (16575/100) ∧
    (compute_metrics 50000 (some 15) 13 1400 (some ["digicode", "gardiennage"]) 4).estimated_rent_high
      = some (22425/100) ∧
    (compute_metrics 50000 (some 15) 13 1400 (some ["digicode", "gardiennage"]) 4).gross_yield
      = some (468/100) ∧
    (compute_metrics 50000 (some 15) 13 1400 (some ["digicode", "gardiennage"]) 4).storage_yield_estimate
      = some (6084/1000) ∧
    (compute_metrics 50000 (some 15) 13 1400 (some ["digicode", "gardiennage"]) 4).accessibility_score
      = 30 ∧
    (compute_metrics 50000 (some 15) 13 1400 (some ["digicode", "gardiennage"]) 4).vertical_storage_potential
      = 45 ∧
    (compute_metrics 50000 (some 15) 13 1400 (some ["digicode", "gardiennage"]) 4).liquidity_score
      = 56 := by
  have ht : tagsSet (some ["digicode", "gardiennage"]) = {"digicode", "gardiennage"} := by
    decide
  have hs : (({"digicode", "gardiennage"} : Finset String) ∩ SECURITY_TAGS).card = 2 := by
    decide
  have hh : (({"digicode", "gardiennage"} : Finset String) ∩ HIGH_ACCESSIBILITY_TAGS).card
      = 1 := by decide
  have hht : decide ((({"digicode", "gardiennage"} : Finset String) ∩ HEIGHT_TAGS) ≠ ∅)
      = false := by decide
  refine ⟨?_, ?_, ?_, ?_, ?_, ?_, ?_, ?_⟩ <;>
    norm_num [compute_metrics, ht, hs, hh, hht, pyRound, roundHalfEven]

theorem compute_metrics_tags_congr (price : ℚ) (surface : Option ℚ)
    (avg_rent city_avg : ℚ) (t1 t2 : Option (List String)) (photos : ℤ)
    (h : tagsSet t1 = tagsSet t2) :
    compute_metrics price surface avg_rent city_avg t1 photos =
      compute_metrics price surface avg_rent city_avg t2 photos := by
  unfold compute_metrics
  rw [h]

theorem compute_edge_score_tags_congr (w : Settings) (price : ℚ)
    (surface : Option ℚ) (city_avg : ℚ) (gy : Option ℚ) (t c : ℚ)
    (t1 t2 : Option (List String)) (liq : ℚ) (ml : Option ℚ) (vsp : ℚ)
    (h : tagsSet t1 = tagsSet t2) :
    compute_edge_score w price surface city_avg gy t c t1 liq ml vsp =
      compute_edge_score w price surface city_avg gy t c t2 liq ml vsp := by
  unfold compute_edge_score _storage_score
  rw [h]

/-- C10: `compute_metrics` and `compute_edge_score` are invariant under
lowercasing the tag list (tags are lowercased before use), and a `None` tag
list behaves exactly like an empty one. -/
theorem tags_case_and_none_invariance (price : ℚ) (surface : Option ℚ)
    (avg_rent city_avg : ℚ) (l : List String) (photos : ℤ) (w : Settings)
    (sell : ℚ) (gy : Option ℚ) (t c liq : ℚ) (ml : Option ℚ) (vsp : ℚ) :
    compute_metrics price surface avg_rent city_avg (some (l.map pyLower)) photos =
      compute_metrics price surface avg_rent city_avg (some l) photos ∧
    compute_metrics price surface avg_rent city_avg none photos =
      compute_metrics price surface avg_rent city_avg (some []) photos ∧
    compute_edge_score w price surface sell gy t c (some (l.map pyLower)) liq ml vsp =
      compute_edge_score w price surface sell gy t c (some l) liq ml vsp ∧
    compute_edge_score w price surface sell gy t c none liq ml vsp =
      compute_edge_score w price surface sell gy t c (some []) liq ml vsp :=
  ⟨compute_metrics_tags_congr _ _ _ _ _ _ _ (tagsSet_lower l),
   compute_metrics_tags_congr _ _ _ _ _ _ _ tagsSet_none,
   compute_edge_score_tags_congr _ _ _ _ _ _ _ _ _ _ _ _ (tagsSet_lower l),
   compute_edge_score_tags_congr _ _ _ _ _ _ _ _ _ _ _ _ tagsSet_none⟩

theorem foldl_refresh_no_update (cities : List String)
    (fetched : String → String → List ℚ) (c0 : DvfCache) (x : String)
    (hx : _fetch_city fetched x = none) :
    (cities.foldl (fun c city =>
      match _fetch_city fetched city with
      | some price => cacheInsert c city price
      | none => c) c0) x = c0 x := by
  induction cities generalizing c0 with
  | nil => rfl
  | cons y ys ih =>
    simp only [List.foldl_cons]
    cases hy : _fetch_city fetched y with
    | none =>
      simp only [hy]
      exact ih c0
    | some p =>
      simp only [hy]
      rw [ih (cacheInsert c0 y p)]
      unfold cacheInsert
      by_cases hxy : x = y
      · subst hxy
        rw [hx] at hy
        exact absurd hy (by simp)
      · rw [if_neg hxy]

theorem foldl_refresh_isSome (cities : List String)
    (fetched : String → String → List ℚ) (c0 : DvfCache) (x : String) (v : ℚ)
    (h : c0 x = some v) :
    ∃ w, (cities.foldl (fun c city =>
      match _fetch_city fetched city with
      | some price => cacheInsert c city price
      | none => c) c0) x = some w := by
  induction cities generalizing c0 v with
  | nil => exact ⟨v, h⟩
  | cons y ys ih =>
    simp only [List.foldl_cons]
    cases hy : _fetch_city fetched y with
    | none =>
      simp only [hy]
      exact ih c0 v h
    | some p =>
      simp only [hy]
      by_cases hxy : x = y
      · subst hxy
        exact ih _ p (by unfold cacheInsert; rw [if_pos rfl])
      · exact ih _ v (by unfold cacheInsert; rw [if_neg hxy]; exact h)

/-- C6: a refresh for a city whose pooled download yields fewer than 5 valid
per-unit prices leaves that city's cache entry unchanged; more generally any
city whose fetch produced no result keeps its previous entry, and no existing
entry is ever deleted (an entry that was present is still present). -/
theorem refresh_insufficient_data_frame (fetched : String → String → List ℚ)
    (cache : DvfCache) (city dept : String) (communes : List String)
    (hcfg : CITY_DVF_CONFIG.lookup city = some (dept, communes))
    (hfew : ((communes.map (fetched dept)).flatten).length < 5) :
    refresh_all_cities fetched cache city = cache city ∧
    (∀ c, _fetch_city fetched c = none →
      refresh_all_cities fetched cache c = cache c) ∧
    (∀ c v, cache c = some v →
      ∃ w, refresh_all_cities fetched cache c = some w) := by
  have hnone : _fetch_city fetched city = none := by
    unfold _fetch_city
    rw [hcfg]
    simp only [if_pos hfew]
  refine ⟨?_, ?_, ?_⟩
  · exact foldl_refresh_no_update _ fetched cache city hnone
  · intro c hc
    exact foldl_refresh_no_update _ fetched cache c hc
  · intro c v hv
    exact foldl_refresh_isSome _ fetched cache c v hv

/-- Witness for C6: an empty download for every commune, a cache holding an
entry for Lyon, refreshing leaves Grenoble (0 pooled prices) and every other
city untouched. -/
theorem refresh_insufficient_data_frame_witness :
    refresh_all_cities (fun _ _ => []) (fun c => if c = "Lyon" then some (1234 : ℚ) else none)
        "Grenoble" = (fun c => if c = "Lyon" then some (1234 : ℚ) else none) "Grenoble" ∧
    (∀ c, _fetch_city (fun _ _ => []) c = none →
      refresh_all_cities (fun _ _ => [])
        (fun c => if c = "Lyon" then some (1234 : ℚ) else none) c
        = (fun c => if c = "Lyon" then some (1234 : ℚ) else none) c) ∧
    (∀ c (v : ℚ), (fun c => if c = "Lyon" then some (1234 : ℚ) else none) c = some v →
      ∃ w, refresh_all_cities (fun _ _ => [])
        (fun c => if c = "Lyon" then some (1234 : ℚ) else none) c = some w) :=
  refresh_insufficient_data_frame (fun _ _ => [])
    (fun c => if c = "Lyon" then some (1234 : ℚ) else none) "Grenoble" "38" ["38185"]
    (by decide) (by decide)

theorem groupFirstPrice_eq (grp : List DvfRow) (P : ℚ) (hne : grp ≠ [])
    (hP : ∀ r ∈ grp, r.valeur_fonciere = some P) : groupFirstPrice grp = P := by
  cases grp with
  | nil => exact absurd rfl hne
  | cons a t =>
    unfold groupFirstPrice
    simp only [List.head?_cons, Option.some_bind]
    rw [hP a (List.mem_cons_self a t)]
    rfl

theorem perUnitPrice_shared (rows : List DvfRow) (k : String) (P : ℚ) (n : ℕ)
    (hn : ((rows.filter qualifies).filter (fun r => r.id_mutation == k)).length = n)
    (hpos : 0 < n)
    (hP : ∀ r ∈ (rows.filter qualifies).filter (fun r => r.id_mutation == k),
      r.valeur_fonciere = some P) :
    perUnitPrice rows k = P / (n : ℚ) := by
  unfold perUnitPrice
  have hne : (rows.filter qualifies).filter (fun r => r.id_mutation == k) ≠ [] := by
    rw [← List.length_pos]
    omega
  rw [groupFirstPrice_eq _ P hne hP, hn]

theorem perUnitPrice_perm (rows rows' : List DvfRow) (k : String)
    (hshared : ∀ r ∈ rows.filter qualifies, ∀ r2 ∈ rows.filter qualifies,
      r.id_mutation = r2.id_mutation → r.valeur_fonciere = r2.valeur_fonciere)
    (hperm : rows.Perm rows') :
    perUnitPrice rows k = perUnitPrice rows' k := by
  have hgar : (rows.filter qualifies).Perm (rows'.filter qualifies) :=
    hperm.filter qualifies
  have hg : ((rows.filter qualifies).filter (fun r => r.id_mutation == k)).Perm
      ((rows'.filter qualifies).filter (fun r => r.id_mutation == k)) :=
    hgar.filter _
  unfold perUnitPrice
  rw [hg.length_eq]
  cases h1 : (rows.filter qualifies).filter (fun r => r.id_mutation == k) with
  | nil =>
    rw [h1] at hg
    rw [(hg.symm.eq_nil : (rows'.filter qualifies).filter (fun r => r.id_mutation == k) = [])]
  | cons a t =>
    rw [h1] at hg
    cases h2 : (rows'.filter qualifies).filter (fun r => r.id_mutation == k) with
    | nil =>
      rw [h2] at hg
      exact absurd hg.eq_nil (by simp)
    | cons b t' =>
      rw [h2] at hg
      have ha_mem : a ∈ (rows.filter qualifies).filter (fun r => r.id_mutation == k) := by
        rw [h1]; exact List.mem_cons_self a t
      have hb_mem' : b ∈ (rows'.filter qualifies).filter (fun r => r.id_mutation == k) := by
        rw [h2]; exact List.mem_cons_self b t'
      have hb_mem : b ∈ (rows.filter qualifies).filter (fun r => r.id_mutation == k) := by
        rw [h1]
        exact hg.mem_iff.mpr (h2 ▸ hb_mem')
      have haq : a ∈ rows.filter qualifies := List.mem_of_mem_filter ha_mem
      have hbq : b ∈ rows.filter qualifies := List.mem_of_mem_filter hb_mem
      have haid : a.id_mutation = k := by
        have := List.of_mem_filter ha_mem
        exact eq_of_beq this
      have hbid : b.id_mutation = k := by
        have := List.of_mem_filter hb_mem
        exact eq_of_beq this
      have hval : a.valeur_fonciere = b.valeur_fonciere :=
        hshared a haq b hbq (by rw [haid, hbid])
      unfold groupFirstPrice
      simp only [List.head?_cons, Option.some_bind]
      rw [hval]

theorem parse_garage_prices_perm (rows rows' : List DvfRow)
    (hshared : ∀ r ∈ rows.filter qualifies, ∀ r2 ∈ rows.filter qualifies,
      r.id_mutation = r2.id_mutation → r.valeur_fonciere = r2.valeur_fonciere)
    (hperm : rows.Perm rows') :
    _parse_garage_prices rows = _parse_garage_prices rows' := by
  unfold _parse_garage_prices
  have hgar : (rows.filter qualifies).Perm (rows'.filter qualifies) :=
    hperm.filter qualifies
  have hkeys : ((rows.filter qualifies).map (·.id_mutation)).toFinset =
      ((rows'.filter qualifies).map (·.id_mutation)).toFinset :=
    List.toFinset_eq_of_perm _ _ (hgar.map _)
  rw [hkeys]
  have hmap : (((rows'.filter qualifies).map (·.id_mutation)).toFinset.sort (· ≤ ·)).map
        (perUnitPrice rows) =
      (((rows'.filter qualifies).map (·.id_mutation)).toFinset.sort (· ≤ ·)).map
        (perUnitPrice rows') :=
    List.map_congr_left (fun k _ => perUnitPrice_perm rows rows' k hshared hperm)
  rw [hmap]

/-- C5: per-mutation deduplication. If the `n` qualifying rows of one
`mutation_id` share the total price `P`, the derived per-unit price for that
mutation is `P / n`; and under the shared-price invariant the multiset of
per-unit prices returned by `_parse_garage_prices` is invariant under any
permutation of the input rows. -/
theorem parse_garage_prices_dedup (rows rows' : List DvfRow) (k : String)
    (P : ℚ) (n : ℕ)
    (hshared : ∀ r ∈ rows.filter qualifies, ∀ r2 ∈ rows.filter qualifies,
      r.id_mutation = r2.id_mutation → r.valeur_fonciere = r2.valeur_fonciere)
    (hn : ((rows.filter qualifies).filter (fun r => r.id_mutation == k)).length = n)
    (hpos : 0 < n)
    (hP : ∀ r ∈ (rows.filter qualifies).filter (fun r => r.id_mutation == k),
      r.valeur_fonciere = some P)
    (hperm : rows.Perm rows') :
    perUnitPrice rows k = P / (n : ℚ) ∧
    Multiset.ofList (_parse_garage_prices rows) =
      Multiset.ofList (_parse_garage_prices rows') := by
  refine ⟨perUnitPrice_shared rows k P n hn hpos hP, ?_⟩
  rw [parse_garage_prices_perm rows rows' hshared hperm]

/-- Witness for C5: a transaction file with mutation `m1` appearing twice at
shared total price 30000 (per-unit 15000) and a second mutation `m2`, in two
row orders. -/
theorem parse_garage_prices_dedup_witness :
    perUnitPrice
        [⟨"m1", "Vente", "Dépendance", some 30000⟩,
         ⟨"m2", "Vente", "Dépendance", some 5000⟩,
         ⟨"m1", "Vente", "Dépendance", some 30000⟩] "m1" = 30000 / ((2 : ℕ) : ℚ) ∧
    Multiset.ofList (_parse_garage_prices
        [⟨"m1", "Vente", "Dépendance", some 30000⟩,
         ⟨"m2", "Vente", "Dépendance", some 5000⟩,
         ⟨"m1", "Vente", "Dépendance", some 30000⟩]) =
      Multiset.ofList (_parse_garage_prices
        [⟨"m1", "Vente", "Dépendance", some 30000⟩,
         ⟨"m1", "Vente", "Dépendance", some 30000⟩,
         ⟨"m2", "Vente", "Dépendance", some 5000⟩]) :=
  parse_garage_prices_dedup
    [⟨"m1", "Vente", "Dépendance", some 30000⟩,
     ⟨"m2", "Vente", "Dépendance", some 5000⟩,
     ⟨"m1", "Vente", "Dépendance", some 30000⟩]
    [⟨"m1", "Vente", "Dépendance", some 30000⟩,
     ⟨"m1", "Vente", "Dépendance", some 30000⟩,
     ⟨"m2", "Vente", "Dépendance", some 5000⟩]
    "m1" 30000 2 (by decide) (by decide) (by decide) (by decide)
    (List.Perm.cons _ (List.Perm.swap _ _ _))
